import Mathlib

/-!
Verification of the Habitto color-asset generator scripts
(`create_color_sets.py` and `create_dark_mode_colors.py`).

The two scripts share a hex decoder `hex_to_rgb` (character-identical in
both files), each define a constant color table and a document builder
`create_color_set_json`, and each run a main loop that writes one
`Contents.json` per color variant under `Assets/Colors.xcassets`.

This file gives a shallow embedding of that code:
  * an ASCII model of Python `int(s, 16)` (sign, surrounding whitespace,
    optional `0x`/`0X` prefix, underscores between digits),
  * Python string slicing (which truncates silently instead of failing),
  * the decoder, the two builders and the two color tables,
  * the JSON serialization (`json.dump` with `indent=2`) for the fixed
    document shape, and the main loops as lists of (path, bytes) writes,
  * an overwriting file-system update function for the write lists.
-/

/-- ASCII hexadecimal digit: `0`-`9`, `a`-`f`, `A`-`F`. -/
def isHexDigitB (c : Char) : Bool :=
  (48 ≤ c.toNat && c.toNat ≤ 57) || (97 ≤ c.toNat && c.toNat ≤ 102) ||
    (65 ≤ c.toNat && c.toNat ≤ 70)

/-- Value of a hexadecimal digit character. -/
def hexVal (c : Char) : Nat :=
  if c.toNat ≤ 57 then c.toNat - 48
  else if 97 ≤ c.toNat then c.toNat - 87
  else c.toNat - 55

/-- ASCII whitespace as stripped by Python `int()`: space, `\t`, `\n`,
`\v`, `\f`, `\r`. -/
def isPySpace (c : Char) : Bool :=
  c.toNat = 32 || (9 ≤ c.toNat && c.toNat ≤ 13)

/-- Drop trailing characters satisfying `p`. -/
def dropTrailing (p : Char → Bool) (l : List Char) : List Char :=
  (l.reverse.dropWhile p).reverse

/-- Hex digits after the first one: digit `(underscore? digit)*`,
underscores allowed only between digits (Python numeric-literal rule). -/
def parseHexTail (acc : Nat) : List Char → Option Nat
  | [] => some acc
  | [c] => if isHexDigitB c then some (acc * 16 + hexVal c) else none
  | c :: d :: rest =>
    if c = '_' then
      if isHexDigitB d then parseHexTail (acc * 16 + hexVal d) rest else none
    else if isHexDigitB c then parseHexTail (acc * 16 + hexVal c) (d :: rest)
    else none

/-- A nonempty run of hex digits (with legal underscores). -/
def parseHexDigits : List Char → Option Nat
  | [] => none
  | c :: rest => if isHexDigitB c then parseHexTail (hexVal c) rest else none

/-- Digits after an explicit `0x`/`0X` prefix; Python allows a single
underscore directly after the prefix. -/
def parsePrefixed : List Char → Option Nat
  | [] => none
  | c :: rest => if c = '_' then parseHexDigits rest else parseHexDigits (c :: rest)

/-- Optional `0x`/`0X` prefix, then digits. -/
def parseAfterSign : List Char → Option Nat
  | c0 :: c1 :: rest =>
    if c0 = '0' && (c1 = 'x' || c1 = 'X') then parsePrefixed rest
    else parseHexDigits (c0 :: c1 :: rest)
  | cs => parseHexDigits cs

/-- Optional single sign, then the unsigned form. -/
def pySign : List Char → Option Int
  | [] => none
  | c :: rest =>
    if c = '+' then (parseAfterSign rest).map Int.ofNat
    else if c = '-' then (parseAfterSign rest).map (fun n => -Int.ofNat n)
    else (parseAfterSign (c :: rest)).map Int.ofNat

/-- Model of Python `int(s, 16)` on ASCII strings (as a `List Char`):
strip surrounding whitespace, optional sign, optional `0x`/`0X` prefix,
then a nonempty run of hex digits with legal underscores; `none` models
the `ValueError` exception.  CPython additionally maps Unicode decimal
digits and Unicode whitespace to ASCII before parsing; that transform
is not modelled, so this function agrees with CPython exactly on ASCII
input and failure claims about it are stated for ASCII input only. -/
def pyIntBase16 (cs : List Char) : Option Int :=
  pySign (dropTrailing isPySpace (cs.dropWhile isPySpace))

/-- Python slice `l[a:b]` (for `0 ≤ a ≤ b`): silently truncates at the
end of the list instead of failing. -/
def pySlice (l : List Char) (a b : Nat) : List Char :=
  (l.drop a).take (b - a)

/-- Python `s.lstrip('#')`: remove every leading `#`. -/
def lstripHash (s : String) : List Char :=
  s.data.dropWhile (fun c => c = '#')

/-- `hex_to_rgb` from both scripts: strip leading `#`, then parse the
slices `[0:2]`, `[2:4]`, `[4:6]` as base-16 integers.  `none` models an
uncaught `ValueError` reaching the caller. -/
def hex_to_rgb (s : String) : Option (Int × Int × Int) :=
  match pyIntBase16 (pySlice (lstripHash s) 0 2),
        pyIntBase16 (pySlice (lstripHash s) 2 4),
        pyIntBase16 (pySlice (lstripHash s) 4 6) with
  | some r, some g, some b => some (r, g, b)
  | _, _, _ => none

/-- Uppercase hexadecimal digit character for a value below 16. -/
def hexDigitUpper (n : Nat) : Char :=
  if n < 10 then Char.ofNat (48 + n) else Char.ofNat (55 + n)

/-- Digit-extraction loop for `natHexUpper`, structurally recursive on a
fuel argument so that it reduces inside the kernel; `fuel = n` always
suffices because the value shrinks by a factor of 16 every step. -/
def natHexUpperAux : Nat → Nat → List Char
  | 0, n => [hexDigitUpper (n % 16)]
  | fuel + 1, n =>
    if n < 16 then [hexDigitUpper n]
    else natHexUpperAux fuel (n / 16) ++ [hexDigitUpper (n % 16)]

/-- Uppercase hexadecimal digit string of a natural number (at least one
digit), as produced by Python `format(n, 'X')` for `n ≥ 0`. -/
def natHexUpper (n : Nat) : List Char :=
  natHexUpperAux n n

/-- Left-pad a character list with `c` to width `w`. -/
def leftPad (c : Char) (w : Nat) (l : List Char) : List Char :=
  List.replicate (w - l.length) c ++ l

/-- Python `format(n, '02X')` on an integer: uppercase hexadecimal,
zero-padded to total width 2 (the sign of a negative number counts
towards the width and precedes the padding). -/
def pyFormat02X (n : Int) : String :=
  if n < 0 then String.mk ('-' :: leftPad '0' 1 (natHexUpper n.natAbs))
  else String.mk (leftPad '0' 2 (natHexUpper n.natAbs))

/-- Python `str.upper` on an ASCII character. -/
def pyUpper (c : Char) : Char :=
  if 97 ≤ c.toNat ∧ c.toNat ≤ 122 then Char.ofNat (c.toNat - 32) else c

/-- One element of the `appearances` array of a colors entry. -/
structure Appearance where
  appearance : String
  value : String
deriving DecidableEq

/-- The `components` object of a color. -/
structure Components where
  alpha : String
  blue : String
  green : String
  red : String
deriving DecidableEq

/-- The `color` object of a colors entry (`colorSpace` renders as the
JSON key `color-space`). -/
structure ColorDef where
  colorSpace : String
  components : Components
deriving DecidableEq

/-- One entry of the `colors` array.  `appearances = none` models the
key being absent from the Python dict literal. -/
structure ColorsEntry where
  appearances : Option (List Appearance)
  color : ColorDef
  idiom : String
deriving DecidableEq

/-- The `info` metadata object. -/
structure Info where
  author : String
  version : Nat
deriving DecidableEq

/-- The full document written to a `Contents.json` file. -/
structure AssetDocument where
  colors : List ColorsEntry
  info : Info
deriving DecidableEq

namespace CreateColorSets

/-- The constant color table of `create_color_sets.py`, in source order
(Python dicts preserve insertion order): family name paired with its
list of (variant name, hex value). -/
def colors : List (String × List (String × String)) := [
  ("Yellow", [
    ("yellow50", "#FEF6E6"),
    ("yellow100", "#FCE2B0"),
    ("yellow200", "#FAD58A"),
    ("yellow300", "#F8C154"),
    ("yellow400", "#F7B533"),
    ("yellow500", "#F5A300"),
    ("yellow600", "#DF9400"),
    ("yellow700", "#AE7400"),
    ("yellow800", "#875A00"),
    ("yellow900", "#674400")
  ]),
  ("Green", [
    ("green50", "#EBF9EE"),
    ("green100", "#C0EECC"),
    ("green200", "#A2E5B3"),
    ("green300", "#77D990"),
    ("green400", "#5DD27A"),
    ("green500", "#34C759"),
    ("green600", "#2FB551"),
    ("green700", "#258D3F"),
    ("green800", "#1D6D31"),
    ("green900", "#165425")
  ]),
  ("Red", [
    ("red50", "#FCEBEE"),
    ("red100", "#F7C0C9"),
    ("red200", "#F3A2AF"),
    ("red300", "#EE778A"),
    ("red400", "#EA5D74"),
    ("red500", "#E53451"),
    ("red600", "#D02F4A"),
    ("red700", "#A3253A"),
    ("red800", "#7E1D2D"),
    ("red900", "#601622")
  ]),
  ("Navy", [
    ("navy50", "#E8E9ED"),
    ("navy100", "#B9BCC8"),
    ("navy200", "#979CAD"),
    ("navy300", "#676E87"),
    ("navy400", "#495270"),
    ("navy500", "#1C274C"),
    ("navy600", "#192345"),
    ("navy700", "#141C36"),
    ("navy800", "#0F152A"),
    ("navy900", "#0C1020")
  ]),
  ("PastelBlue", [
    ("pastelBlue50", "#F4F6FF"),
    ("pastelBlue100", "#EDF1FF"),
    ("pastelBlue300", "#B3C4FF"),
    ("pastelBlue400", "#A4B9FF"),
    ("pastelBlue500", "#8DA7FF"),
    ("pastelBlue600", "#8098E8"),
    ("pastelBlue700", "#6477B5"),
    ("pastelBlue800", "#4E5C8C"),
    ("pastelBlue900", "#3B466B")
  ]),
  ("Grey", [
    ("grey50", "#F9F9F9"),
    ("grey100", "#ECECEF"),
    ("grey200", "#E3E3E7"),
    ("grey300", "#D7D7DC"),
    ("grey400", "#CFCFD5"),
    ("grey500", "#C3C3CB"),
    ("grey600", "#B1B1B9"),
    ("grey700", "#8A8A90"),
    ("grey800", "#6B6B70"),
    ("grey900", "#525255"),
    ("greyBlack", "#191919"),
    ("greyWhite", "#FFFFFF")
  ])]

/-- `create_color_set_json` of `create_color_sets.py`: one colors entry
from the single hex value (the `color_name` argument is unused, as in
the source).  `none` models an uncaught decoder exception. -/
def create_color_set_json (color_name : String) (hex_value : String) :
    Option AssetDocument :=
  match hex_to_rgb hex_value with
  | none => none
  | some (r, g, b) =>
    some
      { colors := [
          { appearances := none,
            color :=
              { colorSpace := "srgb",
                components :=
                  { alpha := "1.000",
                    blue := "0x" ++ pyFormat02X b,
                    green := "0x" ++ pyFormat02X g,
                    red := "0x" ++ pyFormat02X r } },
            idiom := "universal" }],
        info := { author := "xcode", version := 1 } }

end CreateColorSets

namespace CreateDarkModeColors

/-- The constant color table of `create_dark_mode_colors.py`: family
name paired with its list of (variant name, light hex, dark hex). -/
def colors : List (String × List (String × String × String)) := [
  ("Yellow", [
    ("yellow50", "#FEF6E6", "#FEF6E6"),
    ("yellow100", "#FCE2B0", "#FCE2B0"),
    ("yellow200", "#FAD58A", "#FAD58A"),
    ("yellow300", "#F8C154", "#F8C154"),
    ("yellow400", "#F7B533", "#F7B533"),
    ("yellow500", "#F5A300", "#F5A300"),
    ("yellow600", "#DF9400", "#DF9400"),
    ("yellow700", "#AE7400", "#AE7400"),
    ("yellow800", "#875A00", "#875A00"),
    ("yellow900", "#674400", "#674400")
  ]),
  ("Green", [
    ("green50", "#EBF9EE", "#EBF9EE"),
    ("green100", "#C0EECC", "#C0EECC"),
    ("green200", "#A2E5B3", "#A2E5B3"),
    ("green300", "#77D990", "#77D990"),
    ("green400", "#5DD27A", "#5DD27A"),
    ("green500", "#34C759", "#34C759"),
    ("green600", "#2FB551", "#2FB551"),
    ("green700", "#258D3F", "#258D3F"),
    ("green800", "#1D6D31", "#1D6D31"),
    ("green900", "#165425", "#165425")
  ]),
  ("Red", [
    ("red50", "#FCEBEE", "#FCEBEE"),
    ("red100", "#F7C0C9", "#F7C0C9"),
    ("red200", "#F3A2AF", "#F3A2AF"),
    ("red300", "#EE778A", "#EE778A"),
    ("red400", "#EA5D74", "#EA5D74"),
    ("red500", "#E53451", "#E53451"),
    ("red600", "#D02F4A", "#D02F4A"),
    ("red700", "#A3253A", "#A3253A"),
    ("red800", "#7E1D2D", "#7E1D2D"),
    ("red900", "#601622", "#601622")
  ]),
  ("Navy", [
    ("navy50", "#E8E9ED", "#E8E9ED"),
    ("navy100", "#B9BCC8", "#B9BCC8"),
    ("navy200", "#979CAD", "#979CAD"),
    ("navy300", "#676E87", "#676E87"),
    ("navy400", "#495270", "#495270"),
    ("navy500", "#1C274C", "#1C274C"),
    ("navy600", "#192345", "#192345"),
    ("navy700", "#141C36", "#141C36"),
    ("navy800", "#0F152A", "#0F152A"),
    ("navy900", "#0C1020", "#0C1020")
  ]),
  ("PastelBlue", [
    ("pastelBlue50", "#F4F6FF", "#F4F6FF"),
    ("pastelBlue100", "#EDF1FF", "#EDF1FF"),
    ("pastelBlue300", "#B3C4FF", "#B3C4FF"),
    ("pastelBlue400", "#A4B9FF", "#A4B9FF"),
    ("pastelBlue500", "#8DA7FF", "#8DA7FF"),
    ("pastelBlue600", "#8098E8", "#8098E8"),
    ("pastelBlue700", "#6477B5", "#6477B5"),
    ("pastelBlue800", "#4E5C8C", "#4E5C8C"),
    ("pastelBlue900", "#3B466B", "#3B466B")
  ]),
  ("Grey", [
    ("grey50", "#F9F9F9", "#F9F9F9"),
    ("grey100", "#ECECEF", "#ECECEF"),
    ("grey200", "#E3E3E7", "#E3E3E7"),
    ("grey300", "#D7D7DC", "#D7D7DC"),
    ("grey400", "#CFCFD5", "#CFCFD5"),
    ("grey500", "#C3C3CB", "#C3C3CB"),
    ("grey600", "#B1B1B9", "#B1B1B9"),
    ("grey700", "#8A8A90", "#8A8A90"),
    ("grey800", "#6B6B70", "#6B6B70"),
    ("grey900", "#525255", "#525255"),
    ("greyBlack", "#191919", "#191919"),
    ("greyWhite", "#FFFFFF", "#FFFFFF")
  ])]

/-- `create_color_set_json` of `create_dark_mode_colors.py`: a light
entry followed by a dark entry tagged with the luminosity appearance. -/
def create_color_set_json (color_name : String)
    (light_hex : String) (dark_hex : String) : Option AssetDocument :=
  match hex_to_rgb light_hex, hex_to_rgb dark_hex with
  | some (lr, lg, lb), some (dr, dg, db) =>
    some
      { colors := [
          { appearances := none,
            color :=
              { colorSpace := "srgb",
                components :=
                  { alpha := "1.000",
                    blue := "0x" ++ pyFormat02X lb,
                    green := "0x" ++ pyFormat02X lg,
                    red := "0x" ++ pyFormat02X lr } },
            idiom := "universal" },
          { appearances := some [{ appearance := "luminosity", value := "dark" }],
            color :=
              { colorSpace := "srgb",
                components :=
                  { alpha := "1.000",
                    blue := "0x" ++ pyFormat02X db,
                    green := "0x" ++ pyFormat02X dg,
                    red := "0x" ++ pyFormat02X dr } },
            idiom := "universal" }],
        info := { author := "xcode", version := 1 } }
  | _, _ => none

end CreateDarkModeColors

/-- JSON string literal (no character of the emitted documents needs
escaping). -/
def q (s : String) : String := "\"" ++ s ++ "\""

/-- Serialization of a `components` object at nesting depth 4, exactly
as `json.dump(..., indent=2)` renders it. -/
def serializeComponents (c : Components) : String :=
  "\x7b\n" ++
  "          " ++ q "alpha" ++ ": " ++ q c.alpha ++ ",\n" ++
  "          " ++ q "blue" ++ ": " ++ q c.blue ++ ",\n" ++
  "          " ++ q "green" ++ ": " ++ q c.green ++ ",\n" ++
  "          " ++ q "red" ++ ": " ++ q c.red ++ "\n" ++
  "        \x7d"

/-- Serialization of one element of an `appearances` array. -/
def serializeAppearance (a : Appearance) : String :=
  "\x7b\n" ++
  "          " ++ q "appearance" ++ ": " ++ q a.appearance ++ ",\n" ++
  "          " ++ q "value" ++ ": " ++ q a.value ++ "\n" ++
  "        \x7d"

/-- Serialization of an `appearances` array at depth 3. -/
def serializeAppearances (l : List Appearance) : String :=
  match l with
  | [] => "[]"
  | _ =>
    "[\n" ++
    String.intercalate ",\n" (l.map fun a => "        " ++ serializeAppearance a) ++
    "\n      ]"

/-- Serialization of one entry of the `colors` array at depth 2; an
absent `appearances` field emits no key at all. -/
def serializeEntry (e : ColorsEntry) : String :=
  "\x7b\n" ++
  (match e.appearances with
   | none => ""
   | some l => "      " ++ q "appearances" ++ ": " ++ serializeAppearances l ++ ",\n") ++
  "      " ++ q "color" ++ ": \x7b\n" ++
  "        " ++ q "color-space" ++ ": " ++ q e.color.colorSpace ++ ",\n" ++
  "        " ++ q "components" ++ ": " ++ serializeComponents e.color.components ++ "\n" ++
  "      \x7d,\n" ++
  "      " ++ q "idiom" ++ ": " ++ q e.idiom ++ "\n" ++
  "    \x7d"

/-- The bytes `json.dump(document, f, indent=2)` writes for a full
document (keys in dict insertion order, no trailing newline). -/
def serializeDoc (d : AssetDocument) : String :=
  "\x7b\n" ++
  "  " ++ q "colors" ++ ": " ++
  (match d.colors with
   | [] => "[]"
   | es =>
     "[\n" ++
     String.intercalate ",\n" (es.map fun e => "    " ++ serializeEntry e) ++
     "\n  ]") ++ ",\n" ++
  "  " ++ q "info" ++ ": \x7b\n" ++
  "    " ++ q "author" ++ ": " ++ q d.info.author ++ ",\n" ++
  "    " ++ q "version" ++ ": " ++ toString d.info.version ++ "\n" ++
  "  \x7d\n" ++
  "\x7d"

/-- Destination file for one color variant, as built by both main
loops: `f"{base_path}/{color_name}.colorset"` plus `"/Contents.json"`
with `base_path = "Assets/Colors.xcassets"`. -/
def writePath (color_name : String) : String :=
  "Assets/Colors.xcassets/" ++ color_name ++ ".colorset" ++ "/Contents.json"

/-- The main loop of `create_color_sets.py` as the list of
(path, file contents) writes it performs, in table order; `none` models
the run aborting on an uncaught exception. -/
def lightRunWrites : Option (List (String × String)) :=
  (CreateColorSets.colors.flatMap fun p => p.2).mapM fun v =>
    (CreateColorSets.create_color_set_json v.1 v.2).map fun doc =>
      (writePath v.1, serializeDoc doc)

/-- The main loop of `create_dark_mode_colors.py` as its list of
(path, file contents) writes. -/
def darkRunWrites : Option (List (String × String)) :=
  (CreateDarkModeColors.colors.flatMap fun p => p.2).mapM fun v =>
    (CreateDarkModeColors.create_color_set_json v.1 v.2.1 v.2.2).map fun doc =>
      (writePath v.1, serializeDoc doc)

/-- A file system restricted to file contents: path to optional bytes. -/
def FileSys : Type := String → Option String

/-- Apply a list of writes in order; each write fully overwrites the
file at its path (Python `open(path, "w")` followed by `json.dump`). -/
def applyWrites (fs : FileSys) (ws : List (String × String)) : FileSys :=
  ws.foldl (fun f w => fun p => if p = w.1 then some w.2 else f p) fs

/-- Contents left at `p` by a write list, ignoring the prior file
system: the last write to `p`, if any. -/
def lastWrite : List (String × String) → String → Option String
  | [], _ => none
  | w :: rest, p =>
    match lastWrite rest p with
    | some v => some v
    | none => if p = w.1 then some w.2 else none

/-- Whether `pat` is an initial segment of `s`. -/
def startsWithL (pat s : List Char) : Bool :=
  match pat, s with
  | [], _ => true
  | pc :: pr, sc :: sr => pc = sc && startsWithL pr sr
  | _ :: _, [] => false

/-- Whether `pat` occurs contiguously anywhere inside `s`. -/
def hasSubL (pat : List Char) : List Char → Bool
  | [] => startsWithL pat []
  | c :: rest => startsWithL pat (c :: rest) || hasSubL pat rest

/-- A string is a valid 6-digit hex color (spec §3 `HexColor`): after
stripping the optional `#` prefix, exactly 6 hexadecimal digits. -/
def isValidHex6 (s : String) : Bool :=
  (lstripHash s).length == 6 && (lstripHash s).all isHexDigitB

/-- The 22 characters accepted by `isHexDigitB`. -/
def hexChars : List Char :=
  ['A', 'a', '0', 'B', 'b', '1', 'C', 'c', '2', 'D', 'd', '3',
   'E', 'e', '4', 'F', 'f', '5', '6', '7', '8', '9']

/-- The document the light-only builder yields for `#112233` (spec §6
example), written out literally. -/
def exampleLightDoc : AssetDocument :=
  { colors := [
      { appearances := none,
        color :=
          { colorSpace := "srgb",
            components :=
              { alpha := "1.000", blue := "0x33", green := "0x22", red := "0x11" } },
        idiom := "universal" }],
    info := { author := "xcode", version := 1 } }

/-- The document the dark-mode builder yields for `#112233`/`#445566`,
written out literally. -/
def exampleDarkDoc : AssetDocument :=
  { colors := [
      { appearances := none,
        color :=
          { colorSpace := "srgb",
            components :=
              { alpha := "1.000", blue := "0x33", green := "0x22", red := "0x11" } },
        idiom := "universal" },
      { appearances := some [{ appearance := "luminosity", value := "dark" }],
        color :=
          { colorSpace := "srgb",
            components :=
              { alpha := "1.000", blue := "0x66", green := "0x55", red := "0x44" } },
        idiom := "universal" }],
    info := { author := "xcode", version := 1 } }

theorem mem_hexChars {c : Char} (h : isHexDigitB c = true) : c ∈ hexChars := by
  have h' : ((48 ≤ c.toNat ∧ c.toNat ≤ 57) ∨ (97 ≤ c.toNat ∧ c.toNat ≤ 102)) ∨
      (65 ≤ c.toNat ∧ c.toNat ≤ 70) := by
    simpa [isHexDigitB, Bool.or_eq_true, Bool.and_eq_true, decide_eq_true_eq] using h
  have hofn := Char.ofNat_toNat c
  have hcases : c.toNat = 48 ∨ c.toNat = 49 ∨ c.toNat = 50 ∨ c.toNat = 51 ∨
      c.toNat = 52 ∨ c.toNat = 53 ∨ c.toNat = 54 ∨ c.toNat = 55 ∨ c.toNat = 56 ∨
      c.toNat = 57 ∨ c.toNat = 97 ∨ c.toNat = 98 ∨ c.toNat = 99 ∨ c.toNat = 100 ∨
      c.toNat = 101 ∨ c.toNat = 102 ∨ c.toNat = 65 ∨ c.toNat = 66 ∨ c.toNat = 67 ∨
      c.toNat = 68 ∨ c.toNat = 69 ∨ c.toNat = 70 := by omega
  rcases hcases with h|h|h|h|h|h|h|h|h|h|h|h|h|h|h|h|h|h|h|h|h|h <;>
    (rw [← hofn, h]; decide)

theorem parse_pair : ∀ a ∈ hexChars, ∀ b ∈ hexChars,
    pyIntBase16 [a, b] = some (Int.ofNat (16 * hexVal a + hexVal b)) := by decide

theorem parse_single : ∀ c ∈ hexChars,
    pyIntBase16 [c] = some (Int.ofNat (hexVal c)) := by decide

theorem format_pair : ∀ a ∈ hexChars, ∀ b ∈ hexChars,
    pyFormat02X (Int.ofNat (16 * hexVal a + hexVal b)) =
      String.mk [pyUpper a, pyUpper b] := by decide

theorem length_six {α : Type} {l : List α} (h : l.length = 6) :
    ∃ a b c d e f, l = [a, b, c, d, e, f] := by
  rcases l with _|⟨a,_|⟨b,_|⟨c,_|⟨d,_|⟨e,_|⟨f,rest⟩⟩⟩⟩⟩⟩ <;> simp at h
  exact ⟨a, b, c, d, e, f, by rw [h]⟩

/-- On a valid 6-digit hex color the decoder succeeds, and each channel
is the value of its digit pair. -/
theorem hexToRgb_of_valid {s : String} (h : isValidHex6 s = true) :
    ∃ a b c d e f, lstripHash s = [a, b, c, d, e, f] ∧
      a ∈ hexChars ∧ b ∈ hexChars ∧ c ∈ hexChars ∧ d ∈ hexChars ∧
      e ∈ hexChars ∧ f ∈ hexChars ∧
      hex_to_rgb s = some (Int.ofNat (16 * hexVal a + hexVal b),
        Int.ofNat (16 * hexVal c + hexVal d),
        Int.ofNat (16 * hexVal e + hexVal f)) := by
  have h' := h
  simp only [isValidHex6, Bool.and_eq_true, beq_iff_eq, List.all_eq_true] at h'
  obtain ⟨hlen, hall⟩ := h'
  obtain ⟨a, b, c, d, e, f, heq⟩ := length_six hlen
  rw [heq] at hall
  have ha := mem_hexChars (hall a (by simp))
  have hb := mem_hexChars (hall b (by simp))
  have hc := mem_hexChars (hall c (by simp))
  have hd := mem_hexChars (hall d (by simp))
  have he := mem_hexChars (hall e (by simp))
  have hf := mem_hexChars (hall f (by simp))
  refine ⟨a, b, c, d, e, f, heq, ha, hb, hc, hd, he, hf, ?_⟩
  have h1 : pyIntBase16 (pySlice (lstripHash s) 0 2) =
      some (Int.ofNat (16 * hexVal a + hexVal b)) := by
    rw [heq]; exact parse_pair a ha b hb
  have h2 : pyIntBase16 (pySlice (lstripHash s) 2 4) =
      some (Int.ofNat (16 * hexVal c + hexVal d)) := by
    rw [heq]; exact parse_pair c hc d hd
  have h3 : pyIntBase16 (pySlice (lstripHash s) 4 6) =
      some (Int.ofNat (16 * hexVal e + hexVal f)) := by
    rw [heq]; exact parse_pair e he f hf
  unfold hex_to_rgb
  rw [h1, h2, h3]

/-- An ASCII character no form of Python `int(·, 16)` input can
contain: not a hex digit and none of the extra characters its grammar
accepts (sign, whitespace, underscore, `x`/`X` of a prefix).  Non-ASCII
characters may satisfy this predicate yet be accepted by CPython (which
maps Unicode decimal digits and whitespace to ASCII before parsing), so
it is only used under an ASCII restriction. -/
def badChar (c : Char) : Bool :=
  !isHexDigitB c && !isPySpace c && !(c = '+') && !(c = '-') &&
    !(c = '_') && !(c = 'x') && !(c = 'X')

theorem parseHexDigits_none_of_bad0 {c0 : Char} (h : isHexDigitB c0 = false)
    (rest : List Char) : parseHexDigits (c0 :: rest) = none := by
  simp [parseHexDigits, h]

theorem parseHexDigits_single_none {c : Char} (h : isHexDigitB c = false) :
    parseHexDigits [c] = none := parseHexDigits_none_of_bad0 h []

theorem parseHexDigits_pair_none {c0 c1 : Char} (h1 : isHexDigitB c1 = false) :
    parseHexDigits [c0, c1] = none := by
  by_cases h0 : isHexDigitB c0 <;> simp [parseHexDigits, parseHexTail, h0, h1]

theorem badChar_spec {c : Char} (h : badChar c = true) :
    isHexDigitB c = false ∧ isPySpace c = false ∧ c ≠ '+' ∧ c ≠ '-' ∧
      c ≠ '_' ∧ c ≠ 'x' ∧ c ≠ 'X' ∧ c ≠ '0' := by
  simp only [badChar, Bool.and_eq_true, Bool.not_eq_true', decide_eq_false_iff_not] at h
  obtain ⟨⟨⟨⟨⟨⟨hh, hs⟩, hp⟩, hm⟩, hu⟩, hx⟩, hX⟩ := h
  refine ⟨hh, hs, hp, hm, hu, hx, hX, ?_⟩
  intro h0; rw [h0] at hh; exact absurd hh (by decide)

theorem pySign_single_bad {c : Char} (h : badChar c = true) :
    pySign [c] = none := by
  obtain ⟨hh, _, hp, hm, _, _, _, _⟩ := badChar_spec h
  simp [pySign, hp, hm, parseAfterSign, parseHexDigits_single_none hh]

theorem pySign_pair_bad0 {c0 : Char} (h : badChar c0 = true) (c1 : Char) :
    pySign [c0, c1] = none := by
  obtain ⟨hh, _, hp, hm, _, _, _, h0⟩ := badChar_spec h
  simp [pySign, hp, hm, parseAfterSign, h0, parseHexDigits_none_of_bad0 hh]

theorem pySign_pair_bad1 (c0 : Char) {c1 : Char} (h : badChar c1 = true) :
    pySign [c0, c1] = none := by
  obtain ⟨hh, _, _, _, _, hx, hX, _⟩ := badChar_spec h
  by_cases hp : c0 = '+'
  · simp [pySign, hp, parseAfterSign, parseHexDigits_single_none hh]
  · by_cases hm : c0 = '-'
    · simp [pySign, hp, hm, parseAfterSign, parseHexDigits_single_none hh]
    · simp [pySign, hp, hm, parseAfterSign, hx, hX, parseHexDigits_pair_none hh]

/-- Any character slice of length at most 2 holding a thoroughly bad
character fails Python base-16 parsing. -/
theorem pyIntBase16_bad : ∀ {cs : List Char}, cs.length ≤ 2 →
    (∃ c ∈ cs, badChar c = true) → pyIntBase16 cs = none := by
  intro cs hlen hbad
  match cs, hlen with
  | [], _ => simp at hbad
  | [c], _ =>
    obtain ⟨c', hc', hbadc⟩ := hbad
    rw [List.mem_singleton] at hc'
    subst hc'
    obtain ⟨_, hs, _⟩ := badChar_spec hbadc
    simp only [pyIntBase16, List.dropWhile, hs, dropTrailing, List.reverse_cons,
      List.reverse_nil, List.nil_append, List.reverse_singleton]
    exact pySign_single_bad hbadc
  | [c0, c1], _ =>
    rcases hbad with ⟨c', hc', hbadc⟩
    rcases List.mem_cons.mp hc' with hc' | hc'
    · -- the bad character is `c0`
      subst hc'
      obtain ⟨_, hs0, _⟩ := badChar_spec hbadc
      by_cases hs1 : isPySpace c1
      · simp only [pyIntBase16, List.dropWhile, hs0, dropTrailing, List.reverse_cons,
          List.reverse_nil, List.nil_append, hs1, List.reverse_singleton]
        exact pySign_single_bad hbadc
      · simp only [pyIntBase16, List.dropWhile, hs0, dropTrailing, List.reverse_cons,
          List.reverse_nil, List.nil_append, hs1, Bool.false_eq_true, if_false,
          List.reverse_singleton]
        exact pySign_pair_bad0 hbadc c1
    · rw [List.mem_singleton] at hc'
      subst hc'
      obtain ⟨_, hs1, _⟩ := badChar_spec hbadc
      by_cases hs0 : isPySpace c0
      · simp only [pyIntBase16, List.dropWhile, hs0, hs1, dropTrailing, List.reverse_cons,
          List.reverse_nil, List.nil_append, List.reverse_singleton]
        exact pySign_single_bad hbadc
      · simp only [pyIntBase16, List.dropWhile, hs0, hs1, dropTrailing, List.reverse_cons,
          List.reverse_nil, List.nil_append, Bool.false_eq_true, if_false,
          List.reverse_singleton]
        exact pySign_pair_bad1 c0 hbadc

/-- If any of the three slice parses fails, the decoder fails. -/
theorem hexToRgb_eq_none {s : String}
    (h : pyIntBase16 (pySlice (lstripHash s) 0 2) = none ∨
         pyIntBase16 (pySlice (lstripHash s) 2 4) = none ∨
         pyIntBase16 (pySlice (lstripHash s) 4 6) = none) :
    hex_to_rgb s = none := by
  unfold hex_to_rgb
  rcases h1 : pyIntBase16 (pySlice (lstripHash s) 0 2) with _ | r
  · rfl
  · rcases h2 : pyIntBase16 (pySlice (lstripHash s) 2 4) with _ | g
    · rfl
    · rcases h3 : pyIntBase16 (pySlice (lstripHash s) 4 6) with _ | b
      · rfl
      · exfalso
        rcases h with h | h | h <;> simp_all

theorem applyWrites_nil (fs : FileSys) : applyWrites fs [] = fs := rfl

theorem applyWrites_cons (fs : FileSys) (w : String × String)
    (ws : List (String × String)) :
    applyWrites fs (w :: ws) =
      applyWrites (fun p => if p = w.1 then some w.2 else fs p) ws := rfl

/-- The file left at a path by a write list: the last write to it if the
list writes it, the prior contents otherwise. -/
theorem applyWrites_apply (ws : List (String × String)) :
    ∀ (fs : FileSys) (p : String),
      applyWrites fs ws p =
        match lastWrite ws p with
        | some v => some v
        | none => fs p := by
  induction ws with
  | nil => intro fs p; rfl
  | cons w rest ih =>
    intro fs p
    rw [applyWrites_cons, ih]
    cases hlw : lastWrite rest p
    · simp only [lastWrite, hlw]
      by_cases hp : p = w.1 <;> simp [hp]
    · simp only [lastWrite, hlw]

/-- Replaying the same write list is a no-op: every file is fully
overwritten, so the second pass recreates exactly the first pass's
result. -/
theorem applyWrites_idem (ws : List (String × String)) (fs : FileSys) :
    applyWrites (applyWrites fs ws) ws = applyWrites fs ws := by
  funext p
  rw [applyWrites_apply, applyWrites_apply]
  cases hlw : lastWrite ws p
  · simp only [applyWrites_apply, hlw]
  · rfl

theorem lastWrite_isSome_of_mem : ∀ {ws : List (String × String)} {p : String},
    p ∈ ws.map Prod.fst → ∃ v, lastWrite ws p = some v := by
  intro ws
  induction ws with
  | nil => intro p h; simp at h
  | cons w rest ih =>
    intro p h
    rcases hlw : lastWrite rest p with _ | v
    · rw [List.map_cons] at h
      rcases List.mem_cons.mp h with h | h
      · exact ⟨w.2, by simp only [lastWrite, hlw]; exact if_pos h⟩
      · obtain ⟨v, hv⟩ := ih h
        rw [hv] at hlw; cases hlw
    · exact ⟨v, by simp [lastWrite, hlw]⟩

/-- The contents of every file the run writes are independent of the
prior state of the file system. -/
theorem applyWrites_written (ws : List (String × String)) (fs fs' : FileSys)
    (p : String) (h : p ∈ ws.map Prod.fst) :
    applyWrites fs ws p = applyWrites fs' ws p := by
  obtain ⟨v, hv⟩ := lastWrite_isSome_of_mem h
  rw [applyWrites_apply, applyWrites_apply, hv]

theorem length_five {α : Type} {l : List α} (h : l.length = 5) :
    ∃ a b c d e, l = [a, b, c, d, e] := by
  rcases l with _|⟨a,_|⟨b,_|⟨c,_|⟨d,_|⟨e,rest⟩⟩⟩⟩⟩ <;> simp at h
  exact ⟨a, b, c, d, e, by rw [h]⟩

theorem slice_length_le (l : List Char) (a b : Nat) :
    (pySlice l a b).length ≤ b - a := by
  simp [pySlice]

/-- An element of `l` at an index in `[a, a + 2)` lies in the slice
`l[a : a+2]`. -/
theorem get_mem_slice {l : List Char} {i a : Nat} (hi : i < l.length)
    (h1 : a ≤ i) (h2 : i < a + 2) :
    l.get ⟨i, hi⟩ ∈ pySlice l a (a + 2) := by
  have hslice : pySlice l a (a + 2) = (l.drop a).take 2 := by
    simp [pySlice]
  have hlen : i - a < ((l.drop a).take 2).length := by
    simp only [List.length_take, List.length_drop]
    omega
  have hel : ((l.drop a).take 2)[i - a] = l[i] := by
    rw [List.getElem_take, List.getElem_drop]
    congr 1
    omega
  have hget : l.get ⟨i, hi⟩ = l[i] := rfl
  rw [hslice, hget, ← hel]
  exact List.getElem_mem hlen

/-- Dropping leading `#` ignores any number of prepended `#`. -/
theorem dropWhile_hash_replicate (n : Nat) (l : List Char) :
    (List.replicate n '#' ++ l).dropWhile (fun c => c = '#') =
      l.dropWhile (fun c => c = '#') := by
  induction n with
  | zero => rfl
  | succ n ih => simp [List.replicate_succ, List.dropWhile, ih]

/-- C1 counterexample: the input `"+A+BC"` has a remainder of length 5
(shorter than 6) after stripping `#`, and carries the non-hex-digit
character `+` inside the slices `[0:2]` and `[2:4]`, yet `hex_to_rgb`
succeeds with `(10, 11, 12)` instead of failing: Python slicing
truncates silently and `int(·, 16)` accepts a leading sign. -/
theorem C1_counterexample :
    (lstripHash "+A+BC").length < 6 ∧
    isHexDigitB '+' = false ∧
    pySlice (lstripHash "+A+BC") 0 2 = ['+', 'A'] ∧
    pySlice (lstripHash "+A+BC") 2 4 = ['+', 'B'] ∧
    hex_to_rgb "+A+BC" = some (10, 11, 12) := by decide

/-- C1 (amended): `hex_to_rgb` fails for every input whose remainder
after stripping leading `#` is shorter than 5 characters (the `[4:6]`
slice is then empty and `int` rejects an empty string, whatever the
other slices hold); it fails for every ASCII input whose remainder
contains, among its first six characters, a character that is neither a
hex digit nor one of the extra characters Python `int(·, 16)` accepts
(whitespace, sign, underscore, `x`/`X`); but a remainder of exactly 5
hex digits succeeds, the blue channel being parsed from the single
character at position 4.  The bad-character clause is restricted to
ASCII because CPython maps Unicode decimal digits and whitespace to
ASCII before parsing, outside this model. -/
theorem C1_hex_decoder_failure_amended :
    (∀ s : String, (lstripHash s).length < 5 → hex_to_rgb s = none) ∧
    (∀ s : String, (∀ c ∈ s.data, c.toNat < 128) →
        (∃ i, i < 6 ∧ ∃ hi : i < (lstripHash s).length,
            badChar ((lstripHash s).get ⟨i, hi⟩) = true) →
        hex_to_rgb s = none) ∧
    (∀ s : String, (lstripHash s).length = 5 →
        (∀ c ∈ lstripHash s, isHexDigitB c = true) →
        ∃ v, hex_to_rgb s = some v) := by
  refine ⟨?_, ?_, ?_⟩
  · -- remainder shorter than 5: the slice [4:6] is empty and fails
    intro s h
    apply hexToRgb_eq_none
    refine Or.inr (Or.inr ?_)
    have hnil : pySlice (lstripHash s) 4 6 = [] := by
      simp only [pySlice]
      rw [List.drop_eq_nil_iff.mpr (by omega)]
      rfl
    rw [hnil]
    rfl
  · -- an ASCII input with a thoroughly bad character in some slice
    intro s _ h
    obtain ⟨i, hi6, hi, hbad⟩ := h
    apply hexToRgb_eq_none
    interval_cases i
    · exact Or.inl (pyIntBase16_bad (slice_length_le _ 0 2)
        ⟨_, get_mem_slice hi (by omega) (by omega), hbad⟩)
    · exact Or.inl (pyIntBase16_bad (slice_length_le _ 0 2)
        ⟨_, get_mem_slice hi (by omega) (by omega), hbad⟩)
    · exact Or.inr (Or.inl (pyIntBase16_bad (slice_length_le _ 2 4)
        ⟨_, get_mem_slice hi (by omega) (by omega), hbad⟩))
    · exact Or.inr (Or.inl (pyIntBase16_bad (slice_length_le _ 2 4)
        ⟨_, get_mem_slice hi (by omega) (by omega), hbad⟩))
    · exact Or.inr (Or.inr (pyIntBase16_bad (slice_length_le _ 4 6)
        ⟨_, get_mem_slice hi (by omega) (by omega), hbad⟩))
    · exact Or.inr (Or.inr (pyIntBase16_bad (slice_length_le _ 4 6)
        ⟨_, get_mem_slice hi (by omega) (by omega), hbad⟩))
  · intro s hlen hall
    obtain ⟨a, b, c, d, e, heq⟩ := length_five hlen
    rw [heq] at hall
    have ha := mem_hexChars (hall a (by simp))
    have hb := mem_hexChars (hall b (by simp))
    have hc := mem_hexChars (hall c (by simp))
    have hd := mem_hexChars (hall d (by simp))
    have he := mem_hexChars (hall e (by simp))
    have h1 : pyIntBase16 (pySlice (lstripHash s) 0 2) =
        some (Int.ofNat (16 * hexVal a + hexVal b)) := by
      rw [heq]; exact parse_pair a ha b hb
    have h2 : pyIntBase16 (pySlice (lstripHash s) 2 4) =
        some (Int.ofNat (16 * hexVal c + hexVal d)) := by
      rw [heq]; exact parse_pair c hc d hd
    have h3 : pyIntBase16 (pySlice (lstripHash s) 4 6) =
        some (Int.ofNat (hexVal e)) := by
      rw [heq]; exact parse_single e he
    refine ⟨(Int.ofNat (16 * hexVal a + hexVal b),
      Int.ofNat (16 * hexVal c + hexVal d), Int.ofNat (hexVal e)), ?_⟩
    unfold hex_to_rgb
    rw [h1, h2, h3]

/-- C1 witness: a 2-character remainder fails, an ASCII remainder with
`$` in its first slice fails, and a 5-hex-digit remainder (after a `#`)
succeeds. -/
theorem C1_amended_witness :
    hex_to_rgb "AB" = none ∧ hex_to_rgb "$ABCDE" = none ∧
      ∃ v, hex_to_rgb "#ABCDE" = some v :=
  ⟨C1_hex_decoder_failure_amended.1 "AB" (by decide),
   C1_hex_decoder_failure_amended.2.1 "$ABCDE" (by decide)
     ⟨0, by decide, by decide, by decide⟩,
   C1_hex_decoder_failure_amended.2.2 "#ABCDE" (by decide) (by decide)⟩

/-- C2: for every pair of valid 6-digit hex colors the dark-mode
builder produces a document whose `colors` sequence has exactly two
entries in the fixed order [light, dark]; the light entry has no
appearances field, the dark entry carries the luminosity/dark
appearance; both entries are universal idiom, srgb color space, with
components decoded from their respective hex values. -/
theorem C2_dark_builder_two_entries (n lh dh : String)
    (h1 : isValidHex6 lh = true) (h2 : isValidHex6 dh = true) :
    ∃ lr lg lb dr dg db : Int,
      hex_to_rgb lh = some (lr, lg, lb) ∧
      hex_to_rgb dh = some (dr, dg, db) ∧
      CreateDarkModeColors.create_color_set_json n lh dh = some
        { colors := [
            { appearances := none,
              color :=
                { colorSpace := "srgb",
                  components :=
                    { alpha := "1.000",
                      blue := "0x" ++ pyFormat02X lb,
                      green := "0x" ++ pyFormat02X lg,
                      red := "0x" ++ pyFormat02X lr } },
              idiom := "universal" },
            { appearances := some [{ appearance := "luminosity", value := "dark" }],
              color :=
                { colorSpace := "srgb",
                  components :=
                    { alpha := "1.000",
                      blue := "0x" ++ pyFormat02X db,
                      green := "0x" ++ pyFormat02X dg,
                      red := "0x" ++ pyFormat02X dr } },
              idiom := "universal" }],
          info := { author := "xcode", version := 1 } } := by
  obtain ⟨_, _, _, _, _, _, _, _, _, _, _, _, _, hL⟩ := hexToRgb_of_valid h1
  obtain ⟨_, _, _, _, _, _, _, _, _, _, _, _, _, hD⟩ := hexToRgb_of_valid h2
  refine ⟨_, _, _, _, _, _, hL, hD, ?_⟩
  unfold CreateDarkModeColors.create_color_set_json
  rw [hL, hD]

/-- C2 witness at the concrete pair `#112233` / `#445566`. -/
theorem C2_witness :
    ∃ lr lg lb dr dg db : Int,
      hex_to_rgb "#112233" = some (lr, lg, lb) ∧
      hex_to_rgb "#445566" = some (dr, dg, db) ∧
      CreateDarkModeColors.create_color_set_json "foo" "#112233" "#445566" = some
        { colors := [
            { appearances := none,
              color :=
                { colorSpace := "srgb",
                  components :=
                    { alpha := "1.000",
                      blue := "0x" ++ pyFormat02X lb,
                      green := "0x" ++ pyFormat02X lg,
                      red := "0x" ++ pyFormat02X lr } },
              idiom := "universal" },
            { appearances := some [{ appearance := "luminosity", value := "dark" }],
              color :=
                { colorSpace := "srgb",
                  components :=
                    { alpha := "1.000",
                      blue := "0x" ++ pyFormat02X db,
                      green := "0x" ++ pyFormat02X dg,
                      red := "0x" ++ pyFormat02X dr } },
              idiom := "universal" }],
          info := { author := "xcode", version := 1 } } :=
  C2_dark_builder_two_entries "foo" "#112233" "#445566" (by decide) (by decide)

/-- C3: for every valid 6-digit hex color the light-only builder
produces a document whose `colors` sequence has exactly one entry, with
no appearances field, universal idiom, srgb color space, and components
decoded from the hex value. -/
theorem C3_light_builder_single_entry (n h : String)
    (hv : isValidHex6 h = true) :
    ∃ r g b : Int,
      hex_to_rgb h = some (r, g, b) ∧
      CreateColorSets.create_color_set_json n h = some
        { colors := [
            { appearances := none,
              color :=
                { colorSpace := "srgb",
                  components :=
                    { alpha := "1.000",
                      blue := "0x" ++ pyFormat02X b,
                      green := "0x" ++ pyFormat02X g,
                      red := "0x" ++ pyFormat02X r } },
              idiom := "universal" }],
          info := { author := "xcode", version := 1 } } := by
  obtain ⟨_, _, _, _, _, _, _, _, _, _, _, _, _, hR⟩ := hexToRgb_of_valid hv
  refine ⟨_, _, _, hR, ?_⟩
  unfold CreateColorSets.create_color_set_json
  rw [hR]

/-- C3 witness at the spec's example variant `navy500 = #1C274C`. -/
theorem C3_witness :
    ∃ r g b : Int,
      hex_to_rgb "#1C274C" = some (r, g, b) ∧
      CreateColorSets.create_color_set_json "navy500" "#1C274C" = some
        { colors := [
            { appearances := none,
              color :=
                { colorSpace := "srgb",
                  components :=
                    { alpha := "1.000",
                      blue := "0x" ++ pyFormat02X b,
                      green := "0x" ++ pyFormat02X g,
                      red := "0x" ++ pyFormat02X r } },
              idiom := "universal" }],
          info := { author := "xcode", version := 1 } } :=
  C3_light_builder_single_entry "navy500" "#1C274C" (by decide)

/-- C4: decoding a valid 6-digit hex string and re-encoding each
channel with the `0x` prefix and zero-padded 2-digit uppercase hex
format (as the builders do) reproduces the original digit pairs,
uppercased. -/
theorem C4_decode_encode_roundtrip (h : String) (hv : isValidHex6 h = true) :
    ∃ a b c d e f : Char, lstripHash h = [a, b, c, d, e, f] ∧
      ∃ r g bl : Int,
        hex_to_rgb h = some (r, g, bl) ∧
        "0x" ++ pyFormat02X r = "0x" ++ String.mk [pyUpper a, pyUpper b] ∧
        "0x" ++ pyFormat02X g = "0x" ++ String.mk [pyUpper c, pyUpper d] ∧
        "0x" ++ pyFormat02X bl = "0x" ++ String.mk [pyUpper e, pyUpper f] := by
  obtain ⟨a, b, c, d, e, f, heq, ha, hb, hc, hd, he, hf, hR⟩ := hexToRgb_of_valid hv
  exact ⟨a, b, c, d, e, f, heq, _, _, _, hR,
    by rw [format_pair a ha b hb],
    by rw [format_pair c hc d hd],
    by rw [format_pair e he f hf]⟩

/-- C4 witness at the spec's example `#34C759`. -/
theorem C4_witness :
    ∃ a b c d e f : Char, lstripHash "#34C759" = [a, b, c, d, e, f] ∧
      ∃ r g bl : Int,
        hex_to_rgb "#34C759" = some (r, g, bl) ∧
        "0x" ++ pyFormat02X r = "0x" ++ String.mk [pyUpper a, pyUpper b] ∧
        "0x" ++ pyFormat02X g = "0x" ++ String.mk [pyUpper c, pyUpper d] ∧
        "0x" ++ pyFormat02X bl = "0x" ++ String.mk [pyUpper e, pyUpper f] :=
  C4_decode_encode_roundtrip "#34C759" (by decide)

/-- C5: any document either builder produces has `alpha = "1.000"` in
every colors entry and the fixed info block, whatever the variant name
and hex values were. -/
theorem C5_alpha_and_info_constant :
    (∀ n h doc, CreateColorSets.create_color_set_json n h = some doc →
        (∀ e ∈ doc.colors, e.color.components.alpha = "1.000") ∧
        doc.info = { author := "xcode", version := 1 }) ∧
    (∀ n lh dh doc, CreateDarkModeColors.create_color_set_json n lh dh = some doc →
        (∀ e ∈ doc.colors, e.color.components.alpha = "1.000") ∧
        doc.info = { author := "xcode", version := 1 }) := by
  constructor
  · intro n h doc hd
    unfold CreateColorSets.create_color_set_json at hd
    rcases hh : hex_to_rgb h with _ | ⟨r, g, b⟩ <;> rw [hh] at hd
    · cases hd
    · obtain rfl := (Option.some.injEq _ _).mp hd.symm
      constructor
      · intro e he
        rcases List.mem_singleton.mp he with rfl
        rfl
      · rfl
  · intro n lh dh doc hd
    unfold CreateDarkModeColors.create_color_set_json at hd
    rcases hl : hex_to_rgb lh with _ | ⟨lr, lg, lb⟩ <;> rw [hl] at hd
    · cases hd
    · rcases hdk : hex_to_rgb dh with _ | ⟨dr, dg, db⟩ <;> rw [hdk] at hd
      · cases hd
      · obtain rfl := (Option.some.injEq _ _).mp hd.symm
        constructor
        · intro e he
          rcases List.mem_cons.mp he with rfl | he
          · rfl
          · rcases List.mem_singleton.mp he with rfl
            rfl
        · rfl

/-- C5 witness at concrete inputs for both builders. -/
theorem C5_witness :
    ((∀ e ∈ exampleLightDoc.colors, e.color.components.alpha = "1.000") ∧
      exampleLightDoc.info = { author := "xcode", version := 1 }) ∧
    ((∀ e ∈ exampleDarkDoc.colors, e.color.components.alpha = "1.000") ∧
      exampleDarkDoc.info = { author := "xcode", version := 1 }) :=
  ⟨C5_alpha_and_info_constant.1 "foo" "#112233" exampleLightDoc (by decide),
   C5_alpha_and_info_constant.2 "foo" "#112233" "#445566" exampleDarkDoc (by decide)⟩

/-- C6: both generator runs succeed, producing a write list that is a
fixed function of the constant color table; replaying the same writes
is a no-op (every file is fully overwritten), and the bytes of every
written file are independent of the prior file-system state, so two
successive runs leave byte-identical files. -/
theorem C6_runs_idempotent :
    ∃ wsL wsD,
      lightRunWrites = some wsL ∧ darkRunWrites = some wsD ∧
      (∀ fs, applyWrites (applyWrites fs wsL) wsL = applyWrites fs wsL) ∧
      (∀ fs, applyWrites (applyWrites fs wsD) wsD = applyWrites fs wsD) ∧
      (∀ fs fs' p, p ∈ wsL.map Prod.fst →
        applyWrites fs wsL p = applyWrites fs' wsL p) ∧
      (∀ fs fs' p, p ∈ wsD.map Prod.fst →
        applyWrites fs wsD p = applyWrites fs' wsD p) := by
  have hLs : lightRunWrites.isSome = true := by decide
  have hDs : darkRunWrites.isSome = true := by decide
  rcases hL : lightRunWrites with _ | wsL
  · rw [hL] at hLs; cases hLs
  rcases hD : darkRunWrites with _ | wsD
  · rw [hD] at hDs; cases hDs
  exact ⟨wsL, wsD, rfl, rfl,
    fun fs => applyWrites_idem wsL fs,
    fun fs => applyWrites_idem wsD fs,
    fun fs fs' p hp => applyWrites_written wsL fs fs' p hp,
    fun fs fs' p hp => applyWrites_written wsD fs fs' p hp⟩

/-- C7: each run writes exactly one file per color variant, at
`Assets/Colors.xcassets/<variant>.colorset/Contents.json`, named by the
variant alone and in table order; no family name occurs anywhere in any
of the paths it writes. -/
theorem C7_output_paths :
    (lightRunWrites.map fun ws => ws.map Prod.fst) =
      some ((CreateColorSets.colors.flatMap fun p => p.2).map fun v =>
        "Assets/Colors.xcassets/" ++ v.1 ++ ".colorset" ++ "/Contents.json") ∧
    (darkRunWrites.map fun ws => ws.map Prod.fst) =
      some ((CreateDarkModeColors.colors.flatMap fun p => p.2).map fun v =>
        "Assets/Colors.xcassets/" ++ v.1 ++ ".colorset" ++ "/Contents.json") ∧
    (∀ p ∈ CreateColorSets.colors, ∀ v ∈ p.2,
      hasSubL p.1.data (writePath v.1).data = false) ∧
    (∀ p ∈ CreateDarkModeColors.colors, ∀ v ∈ p.2,
      hasSubL p.1.data (writePath v.1).data = false) :=
  ⟨by decide, by decide, by decide, by decide⟩

/-- C8: every color-variant name is unique across the whole table of
each script, and consequently so is every output directory path. -/
theorem C8_variant_names_unique :
    (CreateColorSets.colors.flatMap fun p => p.2.map Prod.fst).Nodup ∧
    (CreateDarkModeColors.colors.flatMap fun p => p.2.map Prod.fst).Nodup ∧
    ((CreateColorSets.colors.flatMap fun p => p.2.map Prod.fst).map writePath).Nodup ∧
    ((CreateDarkModeColors.colors.flatMap fun p => p.2.map Prod.fst).map writePath).Nodup :=
  ⟨by decide, by decide, by decide, by decide⟩

/-- C9: the dark-mode script is the light-only script with every hex
value duplicated into a (light, dark) pair: the tables list the same
variant names in the same order with `light = dark =` the light-only
value, and on equal light/dark inputs the dark builder's document is
the light builder's document with one additional entry appended that
has identical color components and carries the luminosity/dark tag; in
particular the first entry and the info block coincide. -/
theorem C9_scripts_equivalent :
    (CreateDarkModeColors.colors =
      CreateColorSets.colors.map fun p => (p.1, p.2.map fun v => (v.1, v.2, v.2))) ∧
    ((CreateDarkModeColors.colors.flatMap fun p => p.2.map Prod.fst) =
      (CreateColorSets.colors.flatMap fun p => p.2.map Prod.fst)) ∧
    (∀ n h r g b, hex_to_rgb h = some (r, g, b) →
      ∃ entry : ColorsEntry,
        CreateColorSets.create_color_set_json n h = some
          { colors := [entry], info := { author := "xcode", version := 1 } } ∧
        CreateDarkModeColors.create_color_set_json n h h = some
          { colors := [entry,
              { entry with appearances :=
                  (some [{ appearance := "luminosity", value := "dark" }]) }],
            info := { author := "xcode", version := 1 } }) := by
  refine ⟨by decide, by decide, ?_⟩
  intro n h r g b hh
  refine ⟨{ appearances := none,
            color :=
              { colorSpace := "srgb",
                components :=
                  { alpha := "1.000",
                    blue := "0x" ++ pyFormat02X b,
                    green := "0x" ++ pyFormat02X g,
                    red := "0x" ++ pyFormat02X r } },
            idiom := "universal" }, ?_, ?_⟩
  · unfold CreateColorSets.create_color_set_json
    rw [hh]
  · unfold CreateDarkModeColors.create_color_set_json
    rw [hh]

/-- C9 witness at the concrete input `#112233`. -/
theorem C9_witness :
    ∃ entry : ColorsEntry,
      CreateColorSets.create_color_set_json "foo" "#112233" = some
        { colors := [entry], info := { author := "xcode", version := 1 } } ∧
      CreateDarkModeColors.create_color_set_json "foo" "#112233" "#112233" = some
        { colors := [entry,
            { entry with appearances :=
                (some [{ appearance := "luminosity", value := "dark" }]) }],
          info := { author := "xcode", version := 1 } } :=
  C9_scripts_equivalent.2.2 "foo" "#112233" 17 34 51 (by decide)

/-- C10: `lstrip('#')` removes every leading `#`, not only one: for a
string of 6 hex digits, prepending any number of `#` characters leaves
the decoding result unchanged (and defined). -/
theorem C10_lstrip_all_leading_hashes (s : String) (n : Nat)
    (hlen : s.data.length = 6) (hhex : ∀ c ∈ s.data, isHexDigitB c = true) :
    ∃ v, hex_to_rgb (String.mk (List.replicate n '#' ++ s.data)) = some v ∧
      hex_to_rgb s = some v := by
  have hstrip : lstripHash (String.mk (List.replicate n '#' ++ s.data)) =
      lstripHash s :=
    dropWhile_hash_replicate n s.data
  have hcong : hex_to_rgb (String.mk (List.replicate n '#' ++ s.data)) =
      hex_to_rgb s := by
    unfold hex_to_rgb
    rw [hstrip]
  have hself : lstripHash s = s.data := by
    rcases hd : s.data with _ | ⟨a, rest⟩
    · rw [hd] at hlen; simp at hlen
    · have ha : isHexDigitB a = true := hhex a (by rw [hd]; simp)
      have ha' : ¬ (a = '#') := by
        intro e; rw [e] at ha; exact absurd ha (by decide)
      simp [lstripHash, hd, List.dropWhile, ha']
  have hvalid : isValidHex6 s = true := by
    simp only [isValidHex6, hself, Bool.and_eq_true, beq_iff_eq, List.all_eq_true]
    exact ⟨hlen, hhex⟩
  obtain ⟨_, _, _, _, _, _, _, _, _, _, _, _, _, hR⟩ := hexToRgb_of_valid hvalid
  exact ⟨_, by rw [hcong]; exact hR, hR⟩

/-- C10 witness: two prepended hashes on `34C759`. -/
theorem C10_witness :
    ∃ v, hex_to_rgb (String.mk (List.replicate 2 '#' ++ ("34C759" : String).data)) =
        some v ∧
      hex_to_rgb "34C759" = some v :=
  C10_lstrip_all_leading_hashes "34C759" 2 (by decide) (by decide)

/-!
Concrete sanity checks of the embedding, including the boundary rows of
spec §8 and the behaviour of the `int(·, 16)` model on Python's
accepted and rejected forms.
-/

example : pyFormat02X 10 = "0A" := by decide
example : pyFormat02X 0 = "00" := by decide
example : pyFormat02X 255 = "FF" := by decide
example : pyFormat02X (-10) = "-A" := by decide
example : hex_to_rgb "#34C759" = some (52, 199, 89) := by decide
example : hex_to_rgb "#000000" = some (0, 0, 0) := by decide
example : hex_to_rgb "#FFFFFF" = some (255, 255, 255) := by decide
example : hex_to_rgb "ABCDE" = some (171, 205, 14) := by decide
example : hex_to_rgb "+A+BC" = some (10, 11, 12) := by decide
example : hex_to_rgb "ABCD" = none := by decide
example : hex_to_rgb "####000000" = some (0, 0, 0) := by decide
example : hex_to_rgb "GG0000" = none := by decide
example : pyIntBase16 " -0x_A ".data = some (-10) := by decide
example : pyIntBase16 "0x".data = none := by decide
example : pyIntBase16 "A_B".data = some 171 := by decide
example : pyIntBase16 "A__B".data = none := by decide
set_option maxRecDepth 4000 in
example : serializeDoc exampleLightDoc =
    "\x7b\n  \"colors\": [\n    \x7b\n      \"color\": \x7b\n        \"color-space\": \"srgb\",\n        \"components\": \x7b\n          \"alpha\": \"1.000\",\n          \"blue\": \"0x33\",\n          \"green\": \"0x22\",\n          \"red\": \"0x11\"\n        \x7d\n      \x7d,\n      \"idiom\": \"universal\"\n    \x7d\n  ],\n  \"info\": \x7b\n    \"author\": \"xcode\",\n    \"version\": 1\n  \x7d\n\x7d" := by rfl
